import Mathlib

/-!
Shallow embedding of the `spur` chat backend (Next.js API routes backed by a
relational store and an external text-completion service), together with
theorems checking the specification's claims against it.

The relational store (Supabase/Postgres) and the completion service (Groq)
are external collaborators: the store is modelled as explicit table state
(`DB`) threaded through each handler, and every fallible external operation
(row inserts/selects, completion calls) is driven by an oracle record that
says whether that particular call fails and, for completion calls, what the
service returned.  `ORDER BY created_at ASC` is modelled as a sort of the
filtered rows by the `created_at` key.  JavaScript truthiness of an optional
string (`undefined`/`null`/`""` are falsy) is modelled by `falsy`.
-/

set_option linter.unusedVariables false

namespace Spur

/-- Row of the `conversations` table: `conversations(id, user_id, name, created_at)`. -/
structure ConversationRow where
  id : Nat
  user_id : String
  name : String
  created_at : Nat
deriving Repr, DecidableEq

/-- Row of the `messages` table: `messages(id, conversation_id, sender, content, created_at)`. -/
structure MessageRow where
  id : Nat
  conversation_id : Nat
  sender : String
  content : String
  created_at : Nat
deriving Repr, DecidableEq

/-- Row of the `memories` table: `memories(id, user_id, content, created_at)`. -/
structure MemoryRow where
  id : Nat
  user_id : String
  content : String
  created_at : Nat
deriving Repr, DecidableEq

/-- The relational store.  `clock` supplies fresh `id`/`created_at` values for
inserted rows (the database assigns `now()` on insert, monotone across inserts
of one request). -/
structure DB where
  conversations : List ConversationRow
  messages : List MessageRow
  memories : List MemoryRow
  clock : Nat
deriving Repr, DecidableEq

/-- JavaScript truthiness test for an optional string field of a JSON body:
`undefined`, `null` and `""` are falsy. -/
def falsy : Option String → Bool
  | none => true
  | some s => s == ""

/-- Drop leading whitespace characters. -/
def dropWhileWS : List Char → List Char
  | [] => []
  | c :: cs => if c.isWhitespace then dropWhileWS cs else c :: cs

/-- JavaScript's `String.prototype.trim()`: strip whitespace from both ends. -/
def strTrim (s : String) : String :=
  ⟨((dropWhileWS ((dropWhileWS s.data).reverse)).reverse)⟩

/-- Insert one element of a list sorted by the `Nat` key `key`, keeping it sorted. -/
def insertByKey (key : α → Nat) (a : α) : List α → List α
  | [] => [a]
  | x :: xs => if key a ≤ key x then a :: x :: xs else x :: insertByKey key a xs

/-- Sort a list of rows by the `Nat` key `key` ascending (models `ORDER BY key ASC`). -/
def sortByKey (key : α → Nat) : List α → List α
  | [] => []
  | x :: xs => insertByKey key x (sortByKey key xs)

/-- `SELECT ... FROM messages WHERE conversation_id = cid ORDER BY created_at ASC`. -/
def selectMessages (db : DB) (cid : Nat) : List MessageRow :=
  sortByKey (fun m => m.created_at) (db.messages.filter (fun m => m.conversation_id == cid))

/-- `SELECT content FROM memories WHERE user_id = uid ORDER BY created_at ASC`
(the full rows, before the `content` projection). -/
def selectMemories (db : DB) (uid : String) : List MemoryRow :=
  sortByKey (fun m => m.created_at) (db.memories.filter (fun m => m.user_id == uid))

/-- `INSERT INTO conversations (user_id, name) ... RETURNING id`. -/
def DB.insertConversation (db : DB) (uid name : String) : Nat × DB :=
  (db.clock,
   { db with
      conversations := db.conversations ++ [⟨db.clock, uid, name, db.clock⟩]
      clock := db.clock + 1 })

/-- `INSERT INTO messages (conversation_id, sender, content)`. -/
def DB.insertMessage (db : DB) (cid : Nat) (sender content : String) : DB :=
  { db with
      messages := db.messages ++ [⟨db.clock, cid, sender, content, db.clock⟩]
      clock := db.clock + 1 }

/-- `INSERT INTO memories` of one row per extracted fact (a single bulk insert). -/
def DB.insertMemories (db : DB) (uid : String) (facts : List String) : DB :=
  { db with
      memories := db.memories ++
        (facts.enum.map (fun p => ⟨db.clock + p.1, uid, p.2, db.clock + p.1⟩))
      clock := db.clock + facts.length }

/-- `UPDATE conversations SET name = name' WHERE id = cid`. -/
def DB.updateConversationName (db : DB) (cid : Nat) (name' : String) : DB :=
  { db with
      conversations := db.conversations.map
        (fun c => if c.id == cid then { c with name := name' } else c) }

/-- Entry of the conversation history handed to the response generator
(`ConversationEntry` in `lib/llm.ts`). -/
structure ConversationEntry where
  sender : String
  content : String
deriving Repr, DecidableEq

/-- Outcome of one call to the external completion service: `Except.error` when
the HTTP/SDK call throws, otherwise `Except.ok` carrying
`chatCompletion.choices[0]?.message?.content` (`none` = absent/null). -/
abbrev CompletionOutcome := Except Unit (Option String)

/-- Fixed apology returned by `generateAIResponse` when the completion call
succeeds but yields an empty/absent response body. -/
def apologyEmptyResponse : String :=
  "I apologize, but I could not generate a response at this time. Please try again."

/-- Fixed apology returned by `generateAIResponse` when the completion call throws. -/
def apologyError : String :=
  "I apologize, but I am currently experiencing technical difficulties. Please try again in a moment."

/-- `generateAIResponse` from `lib` : throws (`none`) only when `GROQ_API_KEY` is
absent; otherwise returns the completion content, or one of the two fixed
apology strings when the call errors or its body is falsy.  `history`,
`userMessage` and `memories` only shape the prompt sent to the external
service, whose outcome is the oracle argument `completion`. -/
def generateAIResponse (keyPresent : Bool) (history : List ConversationEntry)
    (userMessage : String) (memories : List String)
    (completion : CompletionOutcome) : Option String :=
  if !keyPresent then none
  else some (match completion with
    | .error _ => apologyError
    | .ok content => if falsy content then apologyEmptyResponse else content.getD "")

/-- `generateChatTitle` from `lib`: `choices[0]?.message?.content?.trim() || 'New Conversation'`,
and the fixed fallback `"New Conversation"` when the completion call throws.
`firstMessage` only shapes the prompt. -/
def generateChatTitle (firstMessage : String) (completion : CompletionOutcome) : String :=
  match completion with
  | .error _ => "New Conversation"
  | .ok content =>
    match content with
    | none => "New Conversation"
    | some s => if strTrim s == "" then "New Conversation" else strTrim s

/-- `getMemories` from `lib/memory.ts`: on a storage error returns `[]`
(logged, not raised); otherwise the `content` column of the user's memory rows
ordered by `created_at` ascending. -/
def getMemories (readFails : Bool) (db : DB) (userId : String) : List String :=
  if readFails then []
  else (selectMemories db userId).map (fun m => m.content)

/-- External outcomes driving one run of `summarizeAndStoreFacts`:
the completion call, the `JSON.parse` of its content (`none` = parse throws;
otherwise the optional `facts` field), and whether the memory insert errors. -/
structure FactOracle where
  call : CompletionOutcome
  parse : Option (Option (List String))
  insertFails : Bool
deriving Repr

/-- `summarizeAndStoreFacts` from `lib/memory.ts`: the whole body is inside
`try/catch`, so it never raises.  A thrown completion call, a falsy response
body, a throwing `JSON.parse`, a missing/empty `facts` list, or a failing
insert all leave the store unchanged; otherwise each extracted fact is
appended as one new memory row.  `userMessage`/`aiResponse` only shape the
prompt. -/
def summarizeAndStoreFacts (o : FactOracle) (db : DB) (userId : String)
    (userMessage aiResponse : String) : DB :=
  match o.call with
  | .error _ => db
  | .ok content =>
    if falsy content then db
    else
      match o.parse with
      | none => db
      | some factsField =>
        let newFacts := factsField.getD []
        if newFacts.length > 0 then
          if o.insertFails then db else db.insertMemories userId newFacts
        else db

/-- Parsed JSON body of a chat-turn request:
`const { message, sessionId, userId, name } = await req.json()`. -/
structure ChatRequest where
  message : Option String
  sessionId : Option Nat
  userId : Option String
  name : Option String
deriving Repr, DecidableEq

/-- Body of the chat-turn endpoint's JSON response. -/
inductive ChatBody where
  | errorBody (msg : String)
  | sessionOnly (sessionId : Nat)
  | replyBody (reply : String) (sessionId : Nat)
deriving Repr, DecidableEq

/-- An HTTP response of the chat-turn endpoint. -/
structure ChatResponse where
  status : Nat
  body : ChatBody
deriving Repr, DecidableEq

/-- External outcomes driving one run of the chat-turn `POST` handler:
whether the three environment variables are present, whether each storage
call errors, and the outcome of each completion call.  `titleCompletion`
and `titleUpdateFails` drive the fire-and-forget title task (`titleTask`),
which runs outside the request's own response path. -/
structure TurnOracle where
  envOk : Bool
  createNamedFails : Bool
  createNewFails : Bool
  ownershipReadFails : Bool
  userMsgInsertFails : Bool
  historyFails : Bool
  memoriesFails : Bool
  completion : CompletionOutcome
  aiMsgInsertFails : Bool
  titleCompletion : CompletionOutcome
  titleUpdateFails : Bool
  fact : FactOracle

/-- Result of one chat-turn request: the HTTP response, the store after the
handler's own awaited writes, and whether the handler spawned the
fire-and-forget title-generation task (whose later effect is `titleTask`). -/
structure TurnResult where
  response : ChatResponse
  db : DB
  titleTriggered : Bool

/-- Steps 3–7 of the `POST` handler of `app/api/chat/route.ts`, entered once a
target conversation `cid` is resolved: save the user message (a failure throws,
caught as a 500), fetch history and memories in parallel (a history failure
throws, a memory failure degrades to `[]`), decide whether to spawn the title
task, generate the reply, save the "ai" message with its error result ignored,
then run fact extraction inside `try/catch`. -/
def handleMessage (o : TurnOracle) (db : DB) (userId message : String) (cid : Nat) :
    TurnResult :=
  if o.userMsgInsertFails then
    ⟨⟨500, .errorBody "Internal Server Error"⟩, db, false⟩
  else
    let db1 := db.insertMessage cid "user" message
    let memories := getMemories o.memoriesFails db1 userId
    if o.historyFails then
      ⟨⟨500, .errorBody "Internal Server Error"⟩, db1, false⟩
    else
      let history := selectMessages db1 cid
      let titleTriggered :=
        history.length == 1 && ((history.headD ⟨0, 0, "", "", 0⟩).sender == "user")
      let conversationHistory :=
        history.map (fun msg => ConversationEntry.mk msg.sender msg.content)
      match generateAIResponse true conversationHistory message memories o.completion with
      | none => ⟨⟨500, .errorBody "Internal Server Error"⟩, db1, titleTriggered⟩
      | some aiResponse =>
        let db2 := if o.aiMsgInsertFails then db1 else db1.insertMessage cid "ai" aiResponse
        let db3 := summarizeAndStoreFacts o.fact db2 userId message aiResponse
        ⟨⟨200, .replyBody aiResponse cid⟩, db3, titleTriggered⟩

/-- The `POST` handler of `app/api/chat/route.ts` (the turn orchestrator):
environment check, input validation, the named-conversation-creation
short-circuit, conversation resolution (create when no `sessionId`, otherwise
the ownership check surfaced as 404), then `handleMessage`. -/
def chatPOST (o : TurnOracle) (db : DB) (req : ChatRequest) : TurnResult :=
  if !o.envOk then
    ⟨⟨500, .errorBody "Missing environment variables."⟩, db, false⟩
  else if falsy req.userId || strTrim (req.userId.getD "") == "" then
    ⟨⟨400, .errorBody "User ID (Name) is required."⟩, db, false⟩
  else
    let userId := req.userId.getD ""
    if falsy req.message && !falsy req.name then
      if o.createNamedFails then
        ⟨⟨500, .errorBody "Failed to create new named conversation."⟩, db, false⟩
      else
        let r := db.insertConversation userId (req.name.getD "")
        ⟨⟨200, .sessionOnly r.1⟩, r.2, false⟩
    else if falsy req.message || strTrim (req.message.getD "") == "" then
      ⟨⟨400, .errorBody "Message content is required."⟩, db, false⟩
    else
      let message := req.message.getD ""
      match req.sessionId with
      | none =>
        if o.createNewFails then
          ⟨⟨500, .errorBody "Failed to start new conversation."⟩, db, false⟩
        else
          let r := db.insertConversation userId "New Chat"
          handleMessage o r.2 userId message r.1
      | some cid =>
        if o.ownershipReadFails ||
            (db.conversations.find? (fun c => c.id == cid && c.user_id == userId)).isNone then
          ⟨⟨404, .errorBody "Conversation not found or access denied."⟩, db, false⟩
        else
          handleMessage o db userId message cid

/-- The fire-and-forget auto-title task spawned by the `POST` handler:
`generateChatTitle(message).then(title => update conversations set name)`.
`generateChatTitle` never rejects (it returns the fallback title on failure),
so the `.then` continuation always runs; the `.catch` swallows a failing
`UPDATE`, leaving the store unchanged. -/
def titleTask (titleCompletion : CompletionOutcome) (updateFails : Bool)
    (db : DB) (cid : Nat) (message : String) : DB :=
  let title := generateChatTitle message titleCompletion
  if updateFails then db
  else db.updateConversationName cid title

/-- One entry of the history endpoint's response:
`SELECT sender, content, created_at`. -/
structure HistEntry where
  sender : String
  content : String
  created_at : Nat
deriving Repr, DecidableEq

/-- Body of the history endpoint's JSON response. -/
inductive HistBody where
  | errorBody (msg : String)
  | messagesBody (messages : List HistEntry)
deriving Repr, DecidableEq

/-- The `GET` handler of `app/api/chat/history/route.ts`: environment checks,
mandatory `sessionId` query parameter, then the ordered read of the
conversation's messages; a storage error is surfaced as a 500. -/
def historyGET (envOk readFails : Bool) (db : DB) (sessionId : Option Nat) :
    Nat × HistBody :=
  if !envOk then
    (500, .errorBody "Environment variable is not set.")
  else
    match sessionId with
    | none => (400, .errorBody "Session ID is required.")
    | some sid =>
      if readFails then
        (500, .errorBody "Failed to retrieve message history.")
      else
        (200, .messagesBody
          ((selectMessages db sid).map (fun m => ⟨m.sender, m.content, m.created_at⟩)))

/-! ### Helper lemmas about the `ORDER BY` model -/

theorem insertByKey_perm (key : α → Nat) (a : α) (l : List α) :
    List.Perm (insertByKey key a l) (a :: l) := by
  induction l with
  | nil => simp [insertByKey]
  | cons x xs ih =>
    simp only [insertByKey]
    split
    · exact List.Perm.refl _
    · exact (ih.cons x).trans (List.Perm.swap a x xs)

theorem sortByKey_perm (key : α → Nat) (l : List α) :
    List.Perm (sortByKey key l) l := by
  induction l with
  | nil => simp [sortByKey]
  | cons x xs ih =>
    exact (insertByKey_perm key x _).trans (ih.cons x)

theorem insertByKey_pairwise (key : α → Nat) (a : α) (l : List α)
    (h : l.Pairwise (fun u v => key u ≤ key v)) :
    (insertByKey key a l).Pairwise (fun u v => key u ≤ key v) := by
  induction l with
  | nil => simp [insertByKey]
  | cons x xs ih =>
    rw [List.pairwise_cons] at h
    simp only [insertByKey]
    split
    next hle =>
      refine List.Pairwise.cons ?_ (List.Pairwise.cons h.1 h.2)
      intro b hb
      rcases List.mem_cons.mp hb with hbx | hbxs
      · exact hbx ▸ hle
      · exact le_trans hle (h.1 b hbxs)
    next hgt =>
      refine List.Pairwise.cons ?_ (ih h.2)
      intro b hb
      rcases List.mem_cons.mp ((insertByKey_perm key a xs).mem_iff.mp hb) with hba | hbxs
      · exact hba ▸ le_of_not_le hgt
      · exact h.1 b hbxs

theorem sortByKey_pairwise (key : α → Nat) (l : List α) :
    (sortByKey key l).Pairwise (fun u v => key u ≤ key v) := by
  induction l with
  | nil => simp [sortByKey]
  | cons x xs ih => exact insertByKey_pairwise key x _ ih

/-! ### Helper lemmas about the store operations -/

theorem insertMessage_memories (db : DB) (cid : Nat) (s c : String) :
    (db.insertMessage cid s c).memories = db.memories := rfl

theorem insertConversation_messages (db : DB) (uid nm : String) :
    (db.insertConversation uid nm).2.messages = db.messages := rfl

theorem summarize_messages (o : FactOracle) (db : DB) (uid um ar : String) :
    (summarizeAndStoreFacts o db uid um ar).messages = db.messages := by
  unfold summarizeAndStoreFacts
  rcases o.call with e | content
  · rfl
  · dsimp only
    split
    · rfl
    · rcases h : o.parse with _ | factsField
      · rfl
      · dsimp only
        split
        · split <;> rfl
        · rfl

theorem summarize_memories_append (o : FactOracle) (db : DB) (uid um ar : String) :
    ∃ t, (summarizeAndStoreFacts o db uid um ar).memories = db.memories ++ t := by
  unfold summarizeAndStoreFacts
  rcases o.call with e | content
  · exact ⟨[], by simp⟩
  · dsimp only
    split
    · exact ⟨[], by simp⟩
    · rcases h : o.parse with _ | factsField
      · exact ⟨[], by simp⟩
      · dsimp only
        split
        · split
          · exact ⟨[], by simp⟩
          · exact ⟨_, rfl⟩
        · exact ⟨[], by simp⟩

theorem handleMessage_memories_append (o : TurnOracle) (db : DB) (u m : String) (cid : Nat) :
    ∃ t, (handleMessage o db u m cid).db.memories = db.memories ++ t := by
  unfold handleMessage
  split
  · exact ⟨[], by simp⟩
  · dsimp only
    split
    · exact ⟨[], by simp [DB.insertMessage]⟩
    · split
      · exact ⟨[], by simp [DB.insertMessage]⟩
      · dsimp only
        rcases summarize_memories_append o.fact
            (if o.aiMsgInsertFails then db.insertMessage cid "user" m
             else (db.insertMessage cid "user" m).insertMessage cid "ai" _) u m _ with ⟨t, ht⟩
        refine ⟨t, ?_⟩
        rw [ht]
        split <;> rfl

theorem chatPOST_memories_append (o : TurnOracle) (db : DB) (req : ChatRequest) :
    ∃ t, (chatPOST o db req).db.memories = db.memories ++ t := by
  unfold chatPOST
  split
  · exact ⟨[], by simp⟩
  · split
    · exact ⟨[], by simp⟩
    · dsimp only
      split
      · split
        · exact ⟨[], by simp⟩
        · exact ⟨[], by simp [DB.insertConversation]⟩
      · split
        · exact ⟨[], by simp⟩
        · split
          · split
            · exact ⟨[], by simp⟩
            · exact handleMessage_memories_append o _ _ _ _
          · split
            · exact ⟨[], by simp⟩
            · exact handleMessage_memories_append o _ _ _ _

theorem getMemories_count_mono (db db' : DB) (t : List MemoryRow)
    (h : db'.memories = db.memories ++ t) (uid x : String) :
    (getMemories false db uid).count x ≤ (getMemories false db' uid).count x := by
  have p : List.Perm (getMemories false db uid)
      ((db.memories.filter (fun m => m.user_id == uid)).map (fun m => m.content)) :=
    List.Perm.map _ (sortByKey_perm _ _)
  have p' : List.Perm (getMemories false db' uid)
      ((db'.memories.filter (fun m => m.user_id == uid)).map (fun m => m.content)) :=
    List.Perm.map _ (sortByKey_perm _ _)
  rw [p.count_eq, p'.count_eq, h, List.filter_append, List.map_append, List.count_append]
  exact Nat.le_add_right _ _

theorem getMemories_length_mono (db db' : DB) (t : List MemoryRow)
    (h : db'.memories = db.memories ++ t) (uid : String) :
    (getMemories false db uid).length ≤ (getMemories false db' uid).length := by
  have p := (sortByKey_perm (fun m : MemoryRow => m.created_at)
    (db.memories.filter (fun m => m.user_id == uid))).length_eq
  have p' := (sortByKey_perm (fun m : MemoryRow => m.created_at)
    (db'.memories.filter (fun m => m.user_id == uid))).length_eq
  simp only [getMemories, Bool.false_eq_true, if_false, selectMemories, List.length_map]
  rw [p, p', h, List.filter_append, List.length_append]
  exact Nat.le_add_right _ _

/-! ### The claims -/

/-- **C8.** For every user identifier, the memory accessor returns that user's
fact strings ordered oldest first (the rows it projects are sorted by
`created_at` ascending) with no limit and no deduplication (its output is a
permutation of the `content` of *all* of the user's memory rows); on storage
failure it does not raise but returns the empty sequence. -/
theorem C8_getMemories_contract (db : DB) (uid : String) :
    getMemories true db uid = []
    ∧ getMemories false db uid = (selectMemories db uid).map (fun m => m.content)
    ∧ List.Perm (getMemories false db uid)
        ((db.memories.filter (fun m => m.user_id == uid)).map (fun m => m.content))
    ∧ (selectMemories db uid).Pairwise (fun a b => a.created_at ≤ b.created_at) := by
  refine ⟨rfl, rfl, List.Perm.map _ (sortByKey_perm _ _), sortByKey_pairwise _ _⟩

/-- **C9.** The stored memory set only grows: every chat-turn request leaves the
previous memory rows in place, in order, appending at most new rows at the end;
consequently the facts the memory read returns never shrink across turns
(neither in total length nor in the multiplicity of any fact), and the rows the
read returns are non-decreasing in creation timestamp. -/
theorem C9_memories_append_only (o : TurnOracle) (db : DB) (req : ChatRequest) :
    (∃ t, (chatPOST o db req).db.memories = db.memories ++ t)
    ∧ (∀ uid x, (getMemories false db uid).count x
        ≤ (getMemories false (chatPOST o db req).db uid).count x)
    ∧ (∀ uid, (getMemories false db uid).length
        ≤ (getMemories false (chatPOST o db req).db uid).length)
    ∧ (∀ uid, (selectMemories (chatPOST o db req).db uid).Pairwise
        (fun a b => a.created_at ≤ b.created_at))
    ∧ (∀ (c : CompletionOutcome) (uf : Bool) (cid : Nat) (msg : String),
        (titleTask c uf db cid msg).memories = db.memories) := by
  rcases chatPOST_memories_append o db req with ⟨t, ht⟩
  exact ⟨⟨t, ht⟩,
    fun uid x => getMemories_count_mono db _ t ht uid x,
    fun uid => getMemories_length_mono db _ t ht uid,
    fun uid => sortByKey_pairwise _ _,
    fun c uf cid msg => by cases uf <;> rfl⟩

/-- **C5.** The history read returns the conversation's messages ordered by
creation timestamp ascending (non-decreasing), with no limit (the result is a
permutation of the projection of *all* of the conversation's rows); a
conversation with no messages yields the empty sequence; a failing storage
read fails the caller (a 500 from the `GET` endpoint; a thrown error aborting
the turn with a 500 inside the `POST` handler's pipeline). -/
theorem C5_history_read_contract (db : DB) (sid : Nat) :
    (∃ l, historyGET true false db (some sid) = (200, HistBody.messagesBody l)
       ∧ List.Perm l ((db.messages.filter (fun m => m.conversation_id == sid)).map
            (fun m => HistEntry.mk m.sender m.content m.created_at))
       ∧ l.Pairwise (fun a b => a.created_at ≤ b.created_at))
    ∧ (db.messages.filter (fun m => m.conversation_id == sid) = [] →
        historyGET true false db (some sid) = (200, HistBody.messagesBody []))
    ∧ historyGET true true db (some sid)
        = (500, HistBody.errorBody "Failed to retrieve message history.")
    ∧ (∀ (o : TurnOracle) (u m : String) (cid : Nat),
        o.historyFails = true → o.userMsgInsertFails = false →
        (handleMessage o db u m cid).response
          = ⟨500, ChatBody.errorBody "Internal Server Error"⟩) := by
  constructor
  · exact ⟨(selectMessages db sid).map
        (fun m : MessageRow => HistEntry.mk m.sender m.content m.created_at),
      rfl,
      List.Perm.map (fun m : MessageRow => HistEntry.mk m.sender m.content m.created_at)
        (sortByKey_perm _ _),
      List.Pairwise.map _ (fun a b h => h) (sortByKey_pairwise _ _)⟩
  refine ⟨?_, rfl, ?_⟩
  · intro h
    simp [historyGET, selectMessages, h, sortByKey]
  · intro o u m cid h1 h2
    simp [handleMessage, h1, h2]

/-- Closed witness for the conditional parts of `C5_history_read_contract`. -/
theorem C5_history_read_contract_witness :
    historyGET true false ⟨[], [], [], 0⟩ (some 7) = (200, HistBody.messagesBody [])
    ∧ (handleMessage
        ⟨true, false, false, false, false, true, false, .ok (some "r"), false,
         .ok (some "t"), false, ⟨.error (), none, false⟩⟩
        ⟨[], [], [], 0⟩ "alice" "hi" 7).response
      = ⟨500, ChatBody.errorBody "Internal Server Error"⟩ :=
  ⟨(C5_history_read_contract ⟨[], [], [], 0⟩ 7).2.1 (by decide),
   (C5_history_read_contract ⟨[], [], [], 0⟩ 7).2.2.2 _ "alice" "hi" 7 rfl rfl⟩

/-- A chat-turn request with a valid user identifier, a valid message and a
`sessionId` that passes the ownership check proceeds to the message pipeline. -/
theorem chatPOST_resolved (o : TurnOracle) (db : DB) (u m : String) (cid : Nat)
    (nm : Option String)
    (henv : o.envOk = true) (hor : o.ownershipReadFails = false)
    (hu : strTrim u ≠ "") (hm : strTrim m ≠ "")
    (hown : (db.conversations.find? (fun c => c.id == cid && c.user_id == u)).isSome = true) :
    chatPOST o db ⟨some m, some cid, some u, nm⟩ = handleMessage o db u m cid := by
  have hu' : u ≠ "" := fun h => hu (by rw [h]; rfl)
  have hm' : m ≠ "" := fun h => hm (by rw [h]; rfl)
  rcases hfind : db.conversations.find? (fun c => c.id == cid && c.user_id == u) with _ | c
  · rw [hfind] at hown
    simp at hown
  · simp [chatPOST, henv, hor, falsy, hu', hm', hu, hm, hfind]

/-- **C2.** A chat-turn request naming a conversation that does not exist or is
not owned by the supplied user identifier gets HTTP 404
("Conversation not found or access denied.") and leaves the store unchanged:
no new message row is persisted. -/
theorem C2_foreign_conversation_404 (o : TurnOracle) (db : DB) (u m : String)
    (cid : Nat) (nm : Option String)
    (henv : o.envOk = true) (hu : strTrim u ≠ "") (hm : strTrim m ≠ "")
    (hown : db.conversations.find? (fun c => c.id == cid && c.user_id == u) = none) :
    (chatPOST o db ⟨some m, some cid, some u, nm⟩).response
      = ⟨404, ChatBody.errorBody "Conversation not found or access denied."⟩
    ∧ (chatPOST o db ⟨some m, some cid, some u, nm⟩).db = db := by
  have hu' : u ≠ "" := fun h => hu (by rw [h]; rfl)
  have hm' : m ≠ "" := fun h => hm (by rw [h]; rfl)
  rw [show (⟨some m, some cid, some u, nm⟩ : ChatRequest)
      = ⟨some m, some cid, some u, nm⟩ from rfl]
  constructor <;> simp [chatPOST, henv, falsy, hu', hm', hu, hm, hown]

/-- Closed witness for `C2_foreign_conversation_404`: bob sends a message into
alice's conversation. -/
theorem C2_foreign_conversation_404_witness :
    (chatPOST
      ⟨true, false, false, false, false, false, false, .ok (some "r"), false,
       .ok (some "t"), false, ⟨.error (), none, false⟩⟩
      ⟨[⟨0, "alice", "New Chat", 0⟩], [], [], 1⟩
      ⟨some "hi", some 0, some "bob", none⟩).response
      = ⟨404, ChatBody.errorBody "Conversation not found or access denied."⟩
    ∧ (chatPOST
      ⟨true, false, false, false, false, false, false, .ok (some "r"), false,
       .ok (some "t"), false, ⟨.error (), none, false⟩⟩
      ⟨[⟨0, "alice", "New Chat", 0⟩], [], [], 1⟩
      ⟨some "hi", some 0, some "bob", none⟩).db
      = ⟨[⟨0, "alice", "New Chat", 0⟩], [], [], 1⟩ :=
  C2_foreign_conversation_404 _ _ "bob" "hi" 0 none rfl (by decide) (by decide) (by decide)

/-- **C10.** When the insert of the generated "ai" message fails at the storage
layer, the chat-turn endpoint still returns HTTP 200 with the generated reply
and the resolved session identifier (the insert's error result is never
inspected); the store then holds only the user's message, not the AI reply. -/
theorem C10_ai_insert_failure_still_200 (o : TurnOracle) (db : DB) (u m : String)
    (cid : Nat) (nm : Option String)
    (henv : o.envOk = true) (hor : o.ownershipReadFails = false)
    (hins : o.userMsgInsertFails = false) (hhist : o.historyFails = false)
    (hai : o.aiMsgInsertFails = true)
    (hu : strTrim u ≠ "") (hm : strTrim m ≠ "")
    (hown : (db.conversations.find? (fun c => c.id == cid && c.user_id == u)).isSome = true) :
    ∃ reply,
      (chatPOST o db ⟨some m, some cid, some u, nm⟩).response
        = ⟨200, ChatBody.replyBody reply cid⟩
      ∧ (chatPOST o db ⟨some m, some cid, some u, nm⟩).db.messages
          = db.messages ++ [⟨db.clock, cid, "user", m, db.clock⟩] := by
  rw [chatPOST_resolved o db u m cid nm henv hor hu hm hown]
  unfold handleMessage
  simp only [hins, hhist, hai, Bool.false_eq_true, if_false, if_true, generateAIResponse,
    Bool.not_true, ite_true, ite_false]
  refine ⟨_, rfl, ?_⟩
  rw [summarize_messages]
  rfl

/-- Closed witness for `C10_ai_insert_failure_still_200`. -/
theorem C10_ai_insert_failure_still_200_witness :
    ∃ reply,
      (chatPOST
        ⟨true, false, false, false, false, false, false, .ok (some "a reply"), true,
         .ok (some "t"), false, ⟨.error (), none, false⟩⟩
        ⟨[⟨0, "alice", "New Chat", 0⟩], [], [], 1⟩
        ⟨some "hi", some 0, some "alice", none⟩).response
        = ⟨200, ChatBody.replyBody reply 0⟩
      ∧ (chatPOST
        ⟨true, false, false, false, false, false, false, .ok (some "a reply"), true,
         .ok (some "t"), false, ⟨.error (), none, false⟩⟩
        ⟨[⟨0, "alice", "New Chat", 0⟩], [], [], 1⟩
        ⟨some "hi", some 0, some "alice", none⟩).db.messages
          = [] ++ [⟨1, 0, "user", "hi", 1⟩] :=
  C10_ai_insert_failure_still_200 _ _ "alice" "hi" 0 none rfl rfl rfl rfl rfl
    (by decide) (by decide) (by decide)

/-- **C1.** A chat turn whose external completion call fails — the call throws,
or it returns an empty/absent response body — does not raise: the endpoint
returns HTTP 200 whose reply is one of the two fixed user-facing apology
strings, and the turn persists exactly one new "ai" message whose content is
that same apology string (after the user's own message). -/
theorem C1_completion_failure_apology (o : TurnOracle) (db : DB) (u m : String)
    (cid : Nat) (nm : Option String)
    (henv : o.envOk = true) (hor : o.ownershipReadFails = false)
    (hins : o.userMsgInsertFails = false) (hhist : o.historyFails = false)
    (hai : o.aiMsgInsertFails = false)
    (hu : strTrim u ≠ "") (hm : strTrim m ≠ "")
    (hown : (db.conversations.find? (fun c => c.id == cid && c.user_id == u)).isSome = true)
    (hfail : o.completion = .error ()
      ∨ o.completion = .ok none ∨ o.completion = .ok (some "")) :
    ∃ apology, (apology = apologyError ∨ apology = apologyEmptyResponse)
      ∧ (chatPOST o db ⟨some m, some cid, some u, nm⟩).response
          = ⟨200, ChatBody.replyBody apology cid⟩
      ∧ (chatPOST o db ⟨some m, some cid, some u, nm⟩).db.messages
          = db.messages ++ [⟨db.clock, cid, "user", m, db.clock⟩,
                            ⟨db.clock + 1, cid, "ai", apology, db.clock + 1⟩] := by
  rw [chatPOST_resolved o db u m cid nm henv hor hu hm hown]
  unfold handleMessage
  rcases hfail with hc | hc | hc <;>
    simp only [hins, hhist, hai, hc, Bool.false_eq_true, if_false, if_true,
      generateAIResponse, falsy, Bool.not_true, ite_true, ite_false] <;>
  · refine ⟨_, ?_, rfl, ?_⟩
    · first
        | exact Or.inl rfl
        | exact Or.inr rfl
    · rw [summarize_messages]
      simp [DB.insertMessage]

/-- Closed witness for `C1_completion_failure_apology`: the completion call
throws on alice's turn. -/
theorem C1_completion_failure_apology_witness :
    ∃ apology, (apology = apologyError ∨ apology = apologyEmptyResponse)
      ∧ (chatPOST
          ⟨true, false, false, false, false, false, false, .error (), false,
           .ok (some "t"), false, ⟨.error (), none, false⟩⟩
          ⟨[⟨0, "alice", "New Chat", 0⟩], [], [], 1⟩
          ⟨some "hi", some 0, some "alice", none⟩).response
          = ⟨200, ChatBody.replyBody apology 0⟩
      ∧ (chatPOST
          ⟨true, false, false, false, false, false, false, .error (), false,
           .ok (some "t"), false, ⟨.error (), none, false⟩⟩
          ⟨[⟨0, "alice", "New Chat", 0⟩], [], [], 1⟩
          ⟨some "hi", some 0, some "alice", none⟩).db.messages
          = [] ++ [⟨1, 0, "user", "hi", 1⟩, ⟨2, 0, "ai", apology, 2⟩] :=
  C1_completion_failure_apology _ _ "alice" "hi" 0 none rfl rfl rfl rfl rfl
    (by decide) (by decide) (by decide) (Or.inl rfl)

/-- Once the pipeline is reached, the title task is spawned exactly when the
conversation had no stored messages before this turn's user message: the
just-fetched history then has exactly one message whose sender is `"user"`. -/
theorem handleMessage_titleTriggered (o : TurnOracle) (db : DB) (u m : String) (cid : Nat)
    (hins : o.userMsgInsertFails = false) (hhist : o.historyFails = false) :
    (handleMessage o db u m cid).titleTriggered = true
      ↔ db.messages.filter (fun x => x.conversation_id == cid) = [] := by
  unfold handleMessage
  simp only [hins, hhist, Bool.false_eq_true, if_false, generateAIResponse,
    Bool.not_true, ite_false, ite_true]
  rcases hold : db.messages.filter (fun x => x.conversation_id == cid) with _ | ⟨x, xs⟩
  · simp [selectMessages, DB.insertMessage, List.filter_append, hold, sortByKey, insertByKey]
  · rw [hold]
    have hlen : (selectMessages (db.insertMessage cid "user" m) cid).length = xs.length + 2 := by
      rw [selectMessages, (sortByKey_perm _ _).length_eq, DB.insertMessage]
      simp [List.filter_append, hold]
    constructor
    · intro h
      simp only [Bool.and_eq_true, beq_iff_eq, hlen] at h
      exact absurd h.1 (by omega)
    · intro h
      exact absurd h (List.cons_ne_nil x xs)

/-- A chat-turn request with no `sessionId` creates a fresh conversation named
"New Chat" and proceeds to the pipeline on its identifier. -/
theorem chatPOST_fresh (o : TurnOracle) (db : DB) (u m : String) (nm : Option String)
    (henv : o.envOk = true) (hcn : o.createNewFails = false)
    (hu : strTrim u ≠ "") (hm : strTrim m ≠ "") :
    chatPOST o db ⟨some m, none, some u, nm⟩
      = handleMessage o (db.insertConversation u "New Chat").2 u m db.clock := by
  have hu' : u ≠ "" := fun h => hu (by rw [h]; rfl)
  have hm' : m ≠ "" := fun h => hm (by rw [h]; rfl)
  simp [chatPOST, henv, hcn, falsy, hu', hm', hu, hm, DB.insertConversation]

/-- **C4.** A chat turn triggers title generation if and only if the fetched
history contains exactly one message with sender `"user"`, i.e. exactly when
the conversation had no stored messages before this turn; in particular the
first successful turn on a freshly created conversation (no `sessionId`)
triggers the one title-generation attempt, and any turn on a conversation that
already holds a message triggers none. -/
theorem C4_title_trigger_first_turn (o : TurnOracle) (db : DB) (u m : String)
    (cid : Nat) (nm : Option String)
    (henv : o.envOk = true) (hor : o.ownershipReadFails = false)
    (hins : o.userMsgInsertFails = false) (hhist : o.historyFails = false)
    (hcn : o.createNewFails = false)
    (hu : strTrim u ≠ "") (hm : strTrim m ≠ "")
    (hown : (db.conversations.find? (fun c => c.id == cid && c.user_id == u)).isSome = true)
    (hfresh : db.messages.filter (fun x => x.conversation_id == db.clock) = []) :
    ((chatPOST o db ⟨some m, some cid, some u, nm⟩).titleTriggered = true
      ↔ db.messages.filter (fun x => x.conversation_id == cid) = [])
    ∧ (chatPOST o db ⟨some m, none, some u, nm⟩).titleTriggered = true := by
  constructor
  · rw [chatPOST_resolved o db u m cid nm henv hor hu hm hown]
    exact handleMessage_titleTriggered o db u m cid hins hhist
  · rw [chatPOST_fresh o db u m nm henv hcn hu hm]
    exact (handleMessage_titleTriggered o _ u m db.clock hins hhist).mpr hfresh

/-- Closed witness for `C4_title_trigger_first_turn`: alice's empty
conversation triggers titling; a conversation already holding one message does
not (checked through the iff on a second store). -/
theorem C4_title_trigger_first_turn_witness :
    ((chatPOST
        ⟨true, false, false, false, false, false, false, .ok (some "r"), false,
         .ok (some "t"), false, ⟨.error (), none, false⟩⟩
        ⟨[⟨0, "alice", "New Chat", 0⟩], [], [], 1⟩
        ⟨some "hi", some 0, some "alice", none⟩).titleTriggered = true
      ↔ ([] : List MessageRow).filter (fun x => x.conversation_id == 0) = [])
    ∧ (chatPOST
        ⟨true, false, false, false, false, false, false, .ok (some "r"), false,
         .ok (some "t"), false, ⟨.error (), none, false⟩⟩
        ⟨[⟨0, "alice", "New Chat", 0⟩], [], [], 1⟩
        ⟨some "hi", none, some "alice", none⟩).titleTriggered = true :=
  C4_title_trigger_first_turn _ _ "alice" "hi" 0 none rfl rfl rfl rfl rfl
    (by decide) (by decide) (by decide) (by decide)

/-- **C6.** Input validation of the chat-turn endpoint: a missing/blank user
identifier yields a 400 with the store untouched; a request with no (or empty)
message but a non-empty name short-circuits to creating an empty conversation,
persisting zero messages and returning only its identifier as `sessionId`; any
other request without a non-blank message yields a 400 with the store
untouched. -/
theorem C6_validation_and_creation (o : TurnOracle) (db : DB) :
    (∀ req : ChatRequest, o.envOk = true →
        (req.userId = none ∨ strTrim (req.userId.getD "") = "") →
        (chatPOST o db req).response
          = ⟨400, ChatBody.errorBody "User ID (Name) is required."⟩
        ∧ (chatPOST o db req).db = db)
    ∧ (∀ (u nm : String), o.envOk = true → strTrim u ≠ "" → nm ≠ "" →
        o.createNamedFails = false →
        (chatPOST o db ⟨none, none, some u, some nm⟩).response
          = ⟨200, ChatBody.sessionOnly db.clock⟩
        ∧ (chatPOST o db ⟨none, none, some u, some nm⟩).db.messages = db.messages
        ∧ (chatPOST o db ⟨none, none, some u, some nm⟩).db.conversations
            = db.conversations ++ [⟨db.clock, u, nm, db.clock⟩])
    ∧ (∀ (u : String) (sid : Option Nat) (mo : Option String), o.envOk = true →
        strTrim u ≠ "" →
        (mo = none ∨ ∃ m, mo = some m ∧ strTrim m = "") →
        (chatPOST o db ⟨mo, sid, some u, none⟩).response
          = ⟨400, ChatBody.errorBody "Message content is required."⟩
        ∧ (chatPOST o db ⟨mo, sid, some u, none⟩).db = db) := by
  refine ⟨?_, ?_, ?_⟩
  · intro req henv hbad
    rcases hbad with h | h
    · constructor <;> simp [chatPOST, henv, h, falsy]
    · constructor <;> simp [chatPOST, henv, h, falsy]
  · intro u nm henv hu hnm hcf
    have hu' : u ≠ "" := fun h => hu (by rw [h]; rfl)
    refine ⟨?_, ?_, ?_⟩ <;>
      simp [chatPOST, henv, falsy, hu', hu, hnm, hcf, DB.insertConversation]
  · intro u sid mo henv hu hbad
    have hu' : u ≠ "" := fun h => hu (by rw [h]; rfl)
    rcases hbad with h | ⟨m, h, hm⟩
    · constructor <;> simp [chatPOST, henv, h, falsy, hu', hu]
    · constructor <;> simp [chatPOST, henv, h, falsy, hu', hu, hm]

/-- Closed witness for `C6_validation_and_creation`: a request with no user
identifier, a named-creation request from alice, and a whitespace-only message
from alice. -/
theorem C6_validation_and_creation_witness :
    ((chatPOST
        ⟨true, false, false, false, false, false, false, .ok (some "r"), false,
         .ok (some "t"), false, ⟨.error (), none, false⟩⟩
        ⟨[], [], [], 0⟩ ⟨some "hi", none, none, none⟩).response
      = ⟨400, ChatBody.errorBody "User ID (Name) is required."⟩)
    ∧ ((chatPOST
        ⟨true, false, false, false, false, false, false, .ok (some "r"), false,
         .ok (some "t"), false, ⟨.error (), none, false⟩⟩
        ⟨[], [], [], 0⟩ ⟨none, none, some "alice", some "Support"⟩).response
      = ⟨200, ChatBody.sessionOnly 0⟩)
    ∧ ((chatPOST
        ⟨true, false, false, false, false, false, false, .ok (some "r"), false,
         .ok (some "t"), false, ⟨.error (), none, false⟩⟩
        ⟨[], [], [], 0⟩ ⟨none, none, some "alice", some "Support"⟩).db.messages = [])
    ∧ ((chatPOST
        ⟨true, false, false, false, false, false, false, .ok (some "r"), false,
         .ok (some "t"), false, ⟨.error (), none, false⟩⟩
        ⟨[], [], [], 0⟩ ⟨some "   ", some 3, some "alice", none⟩).response
      = ⟨400, ChatBody.errorBody "Message content is required."⟩) :=
  ⟨((C6_validation_and_creation _ ⟨[], [], [], 0⟩).1 ⟨some "hi", none, none, none⟩
      rfl (Or.inl rfl)).1,
   ((C6_validation_and_creation _ ⟨[], [], [], 0⟩).2.1 "alice" "Support"
      rfl (by decide) (by decide) rfl).1,
   ((C6_validation_and_creation _ ⟨[], [], [], 0⟩).2.1 "alice" "Support"
      rfl (by decide) (by decide) rfl).2.1,
   ((C6_validation_and_creation _ ⟨[], [], [], 0⟩).2.2 "alice" (some 3) (some "   ")
      rfl (by decide) (Or.inr ⟨"   ", rfl, by decide⟩)).1⟩

/-- The pipeline's HTTP response does not depend on the fact-extraction
oracle: whatever fact extraction does (parse failure, storage error, thrown
completion call), the already-computed reply is returned unchanged. -/
theorem handleMessage_response_fact_irrelevant (o : TurnOracle) (f2 : FactOracle)
    (db : DB) (u m : String) (cid : Nat) :
    (handleMessage { o with fact := f2 } db u m cid).response
      = (handleMessage o db u m cid).response := by
  unfold handleMessage
  by_cases h1 : o.userMsgInsertFails
  · simp [h1]
  · by_cases h2 : o.historyFails
    · simp [h1, h2]
    · simp [h1, h2, generateAIResponse]

/-- The chat-turn endpoint's HTTP response does not depend on the
fact-extraction oracle. -/
theorem chatPOST_response_fact_irrelevant (t : TurnOracle) (f2 : FactOracle)
    (db : DB) (req : ChatRequest) :
    (chatPOST { t with fact := f2 } db req).response = (chatPOST t db req).response := by
  unfold chatPOST
  by_cases h1 : t.envOk
  · by_cases h2 : (falsy req.userId || strTrim (req.userId.getD "") == "") = true
    · simp [h1, h2]
    · by_cases h3 : (falsy req.message && !falsy req.name) = true
      · by_cases h4 : t.createNamedFails
        · simp [h1, h2, h3, h4]
        · simp [h1, h2, h3, h4]
      · by_cases h5 : (falsy req.message || strTrim (req.message.getD "") == "") = true
        · simp [h1, h2, h3, h5]
        · rcases hsid : req.sessionId with _ | cid
          · by_cases h6 : t.createNewFails
            · simp [h1, h2, h3, h5, hsid, h6]
            · simpa [h1, h2, h3, h5, hsid, h6] using
                handleMessage_response_fact_irrelevant t f2 _ _ _ _
          · by_cases h7 : (t.ownershipReadFails ||
              (db.conversations.find?
                (fun c => c.id == cid && c.user_id == req.userId.getD "")).isNone) = true
            · simp [h1, h2, h3, h5, hsid, h7]
            · simpa [h1, h2, h3, h5, hsid, h7] using
                handleMessage_response_fact_irrelevant t f2 _ _ _ _
  · simp [h1]

/-- **C7.** Fact extraction: when the extraction completion call throws, its
response body is empty, `JSON.parse` fails, the parsed object lacks a `facts`
list, the list is empty, or the insert itself errors, zero new memory rows are
stored (the store is unchanged); when a non-empty list of fact strings is
parsed and the insert succeeds, exactly those strings are appended as new
memory rows for the user; and no outcome of fact extraction alters the turn's
returned response. -/
theorem C7_fact_extraction (fo : FactOracle) (db : DB) (uid um ar : String) :
    ((fo.call = .error () ∨ fo.call = .ok none ∨ fo.call = .ok (some "")
        ∨ fo.parse = none ∨ fo.parse = some none ∨ fo.parse = some (some [])
        ∨ fo.insertFails = true) →
      summarizeAndStoreFacts fo db uid um ar = db)
    ∧ (∀ (facts : List String) (s : String),
        fo.call = .ok (some s) → s ≠ "" →
        fo.parse = some (some facts) → facts ≠ [] → fo.insertFails = false →
        (summarizeAndStoreFacts fo db uid um ar).memories.map (fun r => r.content)
          = db.memories.map (fun r => r.content) ++ facts
        ∧ (summarizeAndStoreFacts fo db uid um ar).memories.map (fun r => r.user_id)
          = db.memories.map (fun r => r.user_id) ++ facts.map (fun _ => uid))
    ∧ (∀ (t : TurnOracle) (f2 : FactOracle) (db' : DB) (req : ChatRequest),
        (chatPOST { t with fact := f2 } db' req).response
          = (chatPOST t db' req).response) := by
  refine ⟨?_, ?_, fun t f2 db' req => chatPOST_response_fact_irrelevant t f2 db' req⟩
  · intro h
    rcases h with h | h | h | h | h | h | h
    · unfold summarizeAndStoreFacts
      rw [h]
    · unfold summarizeAndStoreFacts
      rw [h]
      simp [falsy]
    · unfold summarizeAndStoreFacts
      rw [h]
      simp [falsy]
    · unfold summarizeAndStoreFacts
      rw [h]
      split
      · rfl
      · split <;> rfl
    · unfold summarizeAndStoreFacts
      rw [h]
      split
      · rfl
      · split <;> rfl
    · unfold summarizeAndStoreFacts
      rw [h]
      split
      · rfl
      · split <;> rfl
    · unfold summarizeAndStoreFacts
      split
      · rfl
      · split
        · rfl
        · split
          · rfl
          · simp [h]
  · intro facts s hc hs hp hne hins
    have hfalsy : falsy (some s) = false := by simp [falsy, hs]
    have hlen : 0 < facts.length := List.length_pos.mpr hne
    have hcontent :
        facts.enum.map ((fun r : MemoryRow => r.content) ∘
          (fun p : Nat × String =>
            (⟨db.clock + p.1, uid, p.2, db.clock + p.1⟩ : MemoryRow))) = facts := by
      show facts.enum.map Prod.snd = facts
      exact List.enum_map_snd facts
    have huid :
        facts.enum.map ((fun r : MemoryRow => r.user_id) ∘
          (fun p : Nat × String =>
            (⟨db.clock + p.1, uid, p.2, db.clock + p.1⟩ : MemoryRow)))
          = facts.map (fun x => uid) := by
      show facts.enum.map (fun x => uid) = facts.map (fun x => uid)
      rw [List.map_const', List.map_const', List.enum_length]
    constructor <;>
      simp [summarizeAndStoreFacts, hc, hfalsy, hp, hins, hlen, Nat.pos_iff_ne_zero,
        DB.insertMemories, List.map_map, hcontent, huid]

/-- Closed witness for `C7_fact_extraction`: a thrown extraction call stores
nothing; a parsed singleton fact list is appended. -/
theorem C7_fact_extraction_witness :
    summarizeAndStoreFacts ⟨.error (), none, false⟩ ⟨[], [], [], 0⟩ "alice" "hi" "reply"
      = ⟨[], [], [], 0⟩
    ∧ (summarizeAndStoreFacts ⟨.ok (some "resp"), some (some ["likes cats"]), false⟩
        ⟨[], [], [], 0⟩ "alice" "hi" "reply").memories.map (fun r => r.content)
      = ([] : List MemoryRow).map (fun r => r.content) ++ ["likes cats"] :=
  ⟨(C7_fact_extraction ⟨.error (), none, false⟩ ⟨[], [], [], 0⟩ "alice" "hi" "reply").1
      (Or.inl rfl),
   ((C7_fact_extraction ⟨.ok (some "resp"), some (some ["likes cats"]), false⟩
      ⟨[], [], [], 0⟩ "alice" "hi" "reply").2.1 ["likes cats"] "resp" rfl (by decide)
      rfl (by decide) rfl).1⟩

/-- **C3 (original claim is false on the code).** Counterexample: a
title-generation run whose completion call throws still updates the stored
display name.  `generateChatTitle` resolves with the fallback title
"New Conversation" instead of rejecting, so the `.then` continuation runs its
`UPDATE` and overwrites the conversation's name ("New Chat" here) with the
fallback — the claim that a failed titling attempt leaves the stored display
name unchanged fails at this input. -/
theorem C3_counterexample_failed_title_updates_name :
    generateChatTitle "hi" (.error ()) = "New Conversation"
    ∧ (titleTask (.error ()) false
        ⟨[⟨0, "alice", "New Chat", 0⟩], [], [], 1⟩ 0 "hi").conversations
        = [⟨0, "alice", "New Conversation", 0⟩]
    ∧ (titleTask (.error ()) false
        ⟨[⟨0, "alice", "New Chat", 0⟩], [], [], 1⟩ 0 "hi").conversations
        ≠ [⟨0, "alice", "New Chat", 0⟩] := by
  refine ⟨rfl, rfl, ?_⟩
  decide

/-- **C3 (amended).** On failure of the completion call the title operation
yields the fixed fallback title "New Conversation"; the display name is then
updated with the titling result whether or not the completion call succeeded —
a failed attempt writes the fallback title — and the stored name is left
unchanged only when the name-update write itself fails. -/
theorem C3_amended_title_fallback (db : DB) (cid : Nat) (message : String)
    (c : CompletionOutcome) :
    generateChatTitle message (.error ()) = "New Conversation"
    ∧ titleTask (.error ()) false db cid message
        = db.updateConversationName cid "New Conversation"
    ∧ titleTask c true db cid message = db :=
  ⟨rfl, rfl, rfl⟩

end Spur
